import Mathlib

/-!
Verification development for the Toggl synchronization layer
(`src/lib/toggl/TogglClient.ts` and `src/lib/toggl/ApiManager.ts`).

The TypeScript source is shallowly embedded:

* JSON values manipulated dynamically by the code are modelled by `Toggl.JVal`
  (JavaScript `undefined` is the constructor `JVal.undefined`; property access on a
  non-object or an absent key yields `undefined`, matching JavaScript semantics at
  every site the code actually reaches — the code always guards property access
  on possibly-null values with a truthiness check first).
* The JavaScript idiom `x || d` (default on falsy values) is translated by
  explicit matches on the falsy values of the relevant type
  (`null`/`undefined`, `0`, `""`, `false`).
* The host transport primitive (`requestUrl`) is modelled as an input of type
  `Except TransportError HttpResponse`: either the transport throws, or it
  yields a status / raw text / parsed JSON body.
* `console.error` logging and `new Notice(...)` user notifications are
  modelled as explicit output lists of strings (`Effects`).
* Asynchronous methods become pure functions from their wire outcome to their
  result together with the effects they emit.
-/

namespace Toggl

/-- JavaScript values as far as the synchronization layer inspects them. -/
inductive JVal where
  | undefined
  | null
  | bool (b : Bool)
  | num (n : Int)
  | str (s : String)
  | arr (xs : List JVal)
  | obj (fields : List (String × JVal))

/-- JavaScript truthiness for `JVal`. -/
def isTruthy : JVal → Bool
  | .undefined => false
  | .null => false
  | .bool b => b
  | .num n => decide (n ≠ 0)
  | .str s => decide (s ≠ "")
  | .arr _ => true
  | .obj _ => true

/-- Property access `v[k]`: `undefined` on non-objects and absent keys. -/
def jGet : JVal → String → JVal
  | .obj fields, k =>
    match fields.find? (fun p => p.1 = k) with
    | some p => p.2
    | none => .undefined
  | _, _ => .undefined

/-- The test `Array.isArray`, returning the elements when it holds. -/
def asArray : JVal → Option (List JVal)
  | .arr xs => some xs
  | _ => none

/-- Property read on an object represented as its own-property list. -/
def jProp (fields : List (String × JVal)) (k : String) : JVal :=
  match fields.find? (fun p => p.1 = k) with
  | some p => p.2
  | none => .undefined

/-- The JavaScript default idiom `v || d`. -/
def jOr (v d : JVal) : JVal :=
  if isTruthy v then v else d

/-- Property assignment `o[k] = v` on an object with unique keys:
replaces the first binding of `k` in place, otherwise appends. -/
def objSet : List (String × JVal) → String → JVal → List (String × JVal)
  | [], k, v => [(k, v)]
  | p :: ps, k, v => if p.1 = k then (k, v) :: ps else p :: objSet ps k v

/-- Object spread `{...o, ...r}` restricted to what the code uses:
assign every own property of `r` into `o`, left to right. -/
def spreadInto (o r : List (String × JVal)) : List (String × JVal) :=
  r.foldl (fun acc p => objSet acc p.1 p.2) o

/-! ## Wire Client (`TogglClient.ts`) -/

/-- A failure thrown by the host transport primitive itself. -/
inductive TransportError where
  | err (msg : String)

/-- Errors surfaced by the synchronization layer. -/
inductive ApiError where
  | http (status : Nat) (text : String)
  | transport (e : TransportError)

/-- What the host transport yields when it does not throw. -/
structure HttpResponse where
  status : Nat
  text : String
  json : JVal

/-- Log line emitted by `TogglApiClient.request` on failure
(`console.error` with the failing method and URL). -/
def requestLog (method url : String) : String :=
  "Toggl API request failed: " ++ method ++ " " ++ url

/-- Embedding of `TogglApiClient.request` (TogglClient.ts:110-134).
A response with status ≥ 400 throws an `Error` carrying status and raw text;
the surrounding `catch` logs method and URL and re-throws (this also applies
to the locally thrown HTTP error, which the same `try` block covers). -/
def request (method url : String) (transport : Except TransportError HttpResponse) :
    Except ApiError JVal × List String :=
  match transport with
  | .error e => (.error (.transport e), [requestLog method url])
  | .ok response =>
    if 400 ≤ response.status then
      (.error (.http response.status response.text), [requestLog method url])
    else
      (.ok response.json, [])

/-- Embedding of `TogglApiClient.getDetailedReport` (TogglClient.ts:244-272).
Calls the transport directly, returns `response.json` without inspecting the
status, and on a transport failure logs a fixed message and re-throws. -/
def getDetailedReportWire (transport : Except TransportError HttpResponse) :
    Except ApiError JVal × List String :=
  match transport with
  | .error e => (.error (.transport e), ["Detailed report request failed"])
  | .ok response => (.ok response.json, [])

/-- Embedding of `TogglApiClient.getSummaryReport` (TogglClient.ts:274-303). -/
def getSummaryReportWire (transport : Except TransportError HttpResponse) :
    Except ApiError JVal × List String :=
  match transport with
  | .error e => (.error (.transport e), ["Summary report request failed"])
  | .ok response => (.ok response.json, [])

/-! ## Domain model (wire shapes and stable shapes) -/

/-- Wire shape of a workspace, restricted to the fields the facade reads. -/
structure WireWorkspace where
  id : Nat
  name : String
deriving DecidableEq

/-- Stable workspace shape (`TogglWorkspace`): string id, name. -/
structure TogglWorkspace where
  id : String
  name : String
deriving DecidableEq

/-- Wire shape of a client (`TogglClient` interface): `workspace_id` and
`wid` may both drift in and out of responses, hence optional here. -/
structure WireClient where
  id : Nat
  workspace_id : Option Nat
  wid : Option Nat
  name : String
  archived : Bool
  at_ : String
deriving DecidableEq

/-- Normalized client item: `wid` resolved through the fallback chain. -/
structure ClientItem where
  id : Nat
  workspace_id : Option Nat
  wid : Nat
  name : String
  archived : Bool
  at_ : String
deriving DecidableEq

/-- Fallback chain `a || b` on optional numbers (`0` is falsy). -/
def natOr (a : Option Nat) (d : Nat) : Nat :=
  match a with
  | some n => if n = 0 then d else n
  | none => d

/-- Wire shape of a project (`TogglProject` interface), restricted to the
fields the facade reads or forwards. -/
structure WireProject where
  id : Nat
  workspace_id : Nat
  wid : Option Nat
  client_id : Option Nat
  cid : Option Nat
  name : String
  is_private : Bool
  active : Bool
  at_ : String
  color : String
  actual_hours : Option Int
  rate_last_updated : Option String
  server_deleted_at : Option String
deriving DecidableEq

/-- Normalized project item (`ProjectsResponseItem` as the facade builds it). -/
structure ProjectItem where
  id : Nat
  workspace_id : Nat
  wid : Nat
  client_id : Option Nat
  cid : Option Nat
  name : String
  is_private : Bool
  active : Bool
  at_ : String
  color : String
  actual_hours : Int
  rate_last_updated : Option String
  server_deleted_at : Option String
deriving DecidableEq

/-- Wire shape of a tag; the facade forwards tags unchanged. -/
structure WireTag where
  id : Nat
  workspace_id : Nat
  name : String
  at_ : String
deriving DecidableEq

/-- Wire shape of a time entry (`TogglTimeEntry` interface), restricted to
the fields the facade reads. -/
structure WireTimeEntry where
  id : Nat
  workspace_id : Nat
  project_id : Option Nat
  billable : Bool
  start : String
  stop : Option String
  duration : Int
  description : Option String
  tags : Option (List String)
  tag_ids : Option (List Nat)
  at_ : String
  server_deleted_at : Option String
  user_id : Nat
deriving DecidableEq

/-- Stable time-entry shape returned by the facade timer operations.
`billable` is optional because the object built by `getCurrentTimer` carries
no `billable` key at all, while the start/stop results inherit it from the
caller-supplied entry. -/
structure TimeEntry where
  at_ : String
  billable : Option Bool
  description : String
  duration : Int
  id : Nat
  project_id : Option Nat
  server_deleted_at : Option String
  start : String
  stop : Option String
  tag_ids : List Nat
  tags : List String
  user_id : Nat
  workspace_id : Nat
deriving DecidableEq

/-- Caller-supplied data for `startTimer` (`TimeEntryStart`). -/
structure TimeEntryStart where
  description : String
  project_id : Option Nat
  billable : Option Bool
  tags : Option (List String)
deriving DecidableEq

/-- The time-entry payload `startTimer` submits to the create call. -/
structure NewTimeEntry where
  billable : Bool
  created_with : String
  description : String
  duration : Int
  project_id : Option Nat
  start : String
  stop : Option String
  tags : List String
  workspace_id : Nat
deriving DecidableEq

/-! ## Synchronization Facade (`ApiManager.ts`): effects and error handling -/

/-- Side effects a facade operation emits: `console.error` log lines and
`new Notice(...)` user notifications. -/
structure Effects where
  logs : List String
  notices : List String
deriving DecidableEq

/-- An operation that emits nothing. -/
def noEffects : Effects := ⟨[], []⟩

/-- String rendering of an error, standing in for JavaScript coercion. -/
def errString : ApiError → String
  | .http s t => "HTTP " ++ toString s ++ ": " ++ t
  | .transport (.err m) => m

/-- Embedding of `handleError` (ApiManager.ts:412-416): logs, raises a user
notification, and re-throws; these are the effects it emits. -/
def handleError (e : ApiError) : Effects :=
  { logs := ["Toggl API error: " ++ errString e]
    notices := ["Error communicating with Toggl API: " ++ errString e] }

/-! ## Facade listing operations -/

/-- Embedding of `TogglAPI.getWorkspaces` (ApiManager.ts:64-74). -/
def getWorkspacesT (wire : Except ApiError (List WireWorkspace)) :
    Except ApiError (List TogglWorkspace) × Effects :=
  match wire with
  | .error e => (.error e, handleError e)
  | .ok response =>
    (.ok (response.map (fun w => { id := toString w.id, name := w.name })), noEffects)

/-- Embedding of `TogglAPI.getClients` (ApiManager.ts:77-90): back-fills
`wid` through the chain `wid || workspace_id || parseInt(settings)`. -/
def getClientsT (widSetting : Nat) (wire : Except ApiError (List WireClient)) :
    Except ApiError (List ClientItem) × Effects :=
  match wire with
  | .error e => (.error e, handleError e)
  | .ok clients =>
    (.ok (clients.map (fun c =>
      { id := c.id
        workspace_id := c.workspace_id
        wid := natOr c.wid (natOr c.workspace_id widSetting)
        name := c.name
        archived := c.archived
        at_ := c.at_ })), noEffects)

/-- Per-project normalization inside `TogglAPI.getProjects`
(ApiManager.ts:105-112): spread of the wire project with five overrides. -/
def normalizeProject (p : WireProject) : ProjectItem :=
  { id := p.id
    workspace_id := p.workspace_id
    wid := natOr p.wid p.workspace_id
    client_id := p.client_id
    cid := match p.cid with
      | some c => if c = 0 then p.client_id else some c
      | none => p.client_id
    name := p.name
    is_private := p.is_private
    active := p.active
    at_ := p.at_
    color := p.color
    actual_hours := match p.actual_hours with
      | some h => if h = 0 then 0 else h
      | none => 0
    rate_last_updated := match p.rate_last_updated with
      | some s => if s = "" then none else some s
      | none => none
    server_deleted_at := match p.server_deleted_at with
      | some s => if s = "" then none else some s
      | none => none }

/-- Embedding of `TogglAPI.getProjects` (ApiManager.ts:97-113): filter to
`active` projects, then normalize each. -/
def getProjectsT (wire : Except ApiError (List WireProject)) :
    Except ApiError (List ProjectItem) × Effects :=
  match wire with
  | .error e => (.error e, handleError e)
  | .ok projects =>
    (.ok ((projects.filter (fun p => p.active)).map normalizeProject), noEffects)

/-- Embedding of `TogglAPI.getTags` (ApiManager.ts:120-125): pass-through. -/
def getTagsT (wire : Except ApiError (List WireTag)) :
    Except ApiError (List WireTag) × Effects :=
  match wire with
  | .error e => (.error e, handleError e)
  | .ok tags => (.ok tags, noEffects)

/-! ## Recent time entries: grouping (`getRecentTimeEntries`) -/

/-- One occurrence inside a grouped recent entry (the object pushed into
`groupedEntries[key]`, ApiManager.ts:150-156). -/
structure OccurrenceItem where
  at_ : String
  id : Nat
  seconds : Int
  start : String
  stop : String
deriving DecidableEq

/-- Grouped recent entry (`SearchTimeEntriesResponseItem` as the facade
builds it, ApiManager.ts:168-180). -/
structure SearchTimeEntriesResponseItem where
  description : String
  hourly_rate_in_cents : Option Nat
  project_id : Option Nat
  row_number : Nat
  tag_ids : List String
  task_id : Option Nat
  time_entries : List OccurrenceItem
  user_id : Nat
  username : String
deriving DecidableEq

/-- The grouping key (ApiManager.ts:144-146):
`user_id + "_" + (project_id || "no_project") + "_" + (description || "no_desc")`. -/
def entryKey (e : WireTimeEntry) : String :=
  toString e.user_id ++ "_" ++
    (match e.project_id with
     | some p => if p = 0 then "no_project" else toString p
     | none => "no_project") ++ "_" ++
    (match e.description with
     | some d => if d = "" then "no_desc" else d
     | none => "no_desc")

/-- The occurrence pushed for one raw entry (ApiManager.ts:150-156):
`seconds` clamps negative (running) durations to 0, `stop` falls back to
`start` when falsy. -/
def mkOccurrence (e : WireTimeEntry) : OccurrenceItem :=
  { at_ := e.at_
    id := e.id
    seconds := if 0 < e.duration then e.duration else 0
    start := e.start
    stop := match e.stop with
      | some s => if s = "" then e.start else s
      | none => e.start }

/-- One step of the grouping fold (ApiManager.ts:143-157): push the
occurrence onto the existing key, or create the key at the end.
JavaScript objects keep string keys (none of these keys is an array index,
every key contains an underscore) in insertion order, so the object is
modelled as an association list. -/
def addToGroups (gs : List (String × List OccurrenceItem)) (e : WireTimeEntry) :
    List (String × List OccurrenceItem) :=
  if gs.any (fun p => p.1 = entryKey e) then
    gs.map (fun p => if p.1 = entryKey e then (p.1, p.2 ++ [mkOccurrence e]) else p)
  else
    gs ++ [(entryKey e, [mkOccurrence e])]

/-- The grouping fold over the fetched raw entries. -/
def groupEntries (response : List WireTimeEntry) : List (String × List OccurrenceItem) :=
  response.foldl addToGroups []

/-- Keys in first-seen order, as `Object.keys` returns them. -/
def firstSeenKeys (keys : List String) : List String :=
  keys.foldl (fun acc k => if k ∈ acc then acc else acc ++ [k]) []

/-- Specification view of the grouping fold: one group per first-seen key,
holding the occurrences of the entries with that key in input order.
Proved equal to `groupEntries` below. -/
def groupsSpec (response : List WireTimeEntry) : List (String × List OccurrenceItem) :=
  (firstSeenKeys (response.map entryKey)).map
    (fun k => (k, (response.filter (fun e => entryKey e = k)).map mkOccurrence))

/-- The record built for one surviving group (ApiManager.ts:162-180):
`firstEntry` is the first fetched entry whose id occurs among the group's
occurrences, and every metadata field defaults on falsy values. -/
def buildGroup (response : List WireTimeEntry) (idx : Nat)
    (entries : List OccurrenceItem) : SearchTimeEntriesResponseItem :=
  let firstEntry := response.find? (fun e => entries.any (fun o => o.id = e.id))
  { description := (firstEntry.bind (fun f => f.description)).getD ""
    hourly_rate_in_cents := none
    project_id := match firstEntry with
      | some f =>
        (match f.project_id with
         | some p => if p = 0 then none else some p
         | none => none)
      | none => none
    row_number := idx + 1
    tag_ids := ((firstEntry.bind (fun f => f.tag_ids)).getD []).map toString
    task_id := none
    time_entries := entries
    user_id := (firstEntry.map (fun f => f.user_id)).getD 0
    username := "User" }

/-- Embedding of the pure part of `TogglAPI.getRecentTimeEntries`
(ApiManager.ts:140-181): fold into groups, drop empty groups, and rebuild
each group with `buildGroup` at its 1-based position. -/
def getRecentTimeEntries (response : List WireTimeEntry) :
    List SearchTimeEntriesResponseItem :=
  (((groupEntries response).filter (fun p => 0 < p.2.length)).enum).map
    (fun ie => buildGroup response ie.1 ie.2.2)

/-- Embedding of `TogglAPI.getRecentTimeEntries` (ApiManager.ts:130-182)
as a function of the wire outcome. -/
def getRecentTimeEntriesT (wire : Except ApiError (List WireTimeEntry)) :
    Except ApiError (List SearchTimeEntriesResponseItem) × Effects :=
  match wire with
  | .error e => (.error e, handleError e)
  | .ok response => (.ok (getRecentTimeEntries response), noEffects)

/-! ## Report operations -/

/-- Embedding of `getResolutionFromDateRange` (ApiManager.ts:393-410).
Dates are modelled as epoch-day numbers; `moment(end).diff(start, "days")`
on two `YYYY-MM-DD` dates is their exact whole-day difference. -/
def getResolutionFromDateRange (startDate endDate : Int) : String :=
  let diffDays := endDate - startDate
  if diffDays ≤ 1 then "hour"
  else if diffDays ≤ 7 then "day"
  else if diffDays ≤ 31 then "day"
  else "month"

/-- Embedding of the result object of `TogglAPI.getSummaryTimeChart`
(ApiManager.ts:247-255): an object literal with `graph`, `resolution` and
`total_seconds` keys followed by a spread of the wire response, which
overrides any key it shares with the literal. -/
def getSummaryTimeChart (start_date end_date : Int)
    (response : List (String × JVal)) : List (String × JVal) :=
  spreadInto
    [("graph", jOr (jProp response "graph") (.arr [])),
     ("resolution", .str (getResolutionFromDateRange start_date end_date)),
     ("total_seconds", jOr (jProp response "total_seconds") (.num 0))]
    response

/-- Embedding of `TogglAPI.getSummaryTimeChart` (ApiManager.ts:236-260):
inner `.catch(handleError)` notifies and re-throws, the outer catch adds a
log line and re-throws. -/
def getSummaryTimeChartT (start_date end_date : Int)
    (wire : Except ApiError (List (String × JVal))) :
    Except ApiError (List (String × JVal)) × Effects :=
  match wire with
  | .error e =>
    let eff := handleError e
    (.error e,
     { eff with logs := eff.logs ++ ["Error fetching summary time chart: " ++ errString e] })
  | .ok response => (.ok (getSummaryTimeChart start_date end_date response), noEffects)

/-- Embedding of `TogglAPI.getSummary` (ApiManager.ts:228-234): pass-through. -/
def getSummaryT (wire : Except ApiError (List (String × JVal))) :
    Except ApiError (List (String × JVal)) × Effects :=
  match wire with
  | .error e => (.error e, handleError e)
  | .ok response => (.ok response, noEffects)

/-- One group of a summary report (`response.groups` element) as
`getDailySummary` projects it. -/
structure GroupSummary where
  id : Nat
  name : String
  seconds : Int
deriving DecidableEq

/-- Embedding of `TogglAPI.getDailySummary` (ApiManager.ts:193-220): the
inner `.catch(handleError)` notifies and re-throws, the outer catch logs and
recovers to an empty list; a response without a truthy `groups` field also
yields an empty list. -/
def getDailySummaryT (wire : Except ApiError (Option (List GroupSummary))) :
    Except ApiError (List GroupSummary) × Effects :=
  match wire with
  | .error e =>
    let eff := handleError e
    (.ok [],
     { eff with logs := eff.logs ++ ["Error fetching daily summary: " ++ errString e] })
  | .ok response =>
    match response with
    | some groups => (.ok (groups.map (fun g => ⟨g.id, g.name, g.seconds⟩)), noEffects)
    | none => (.ok [], noEffects)

/-- Envelope normalization and queue routing of `TogglAPI.getDetailedReport`
(ApiManager.ts:270-293). The queue passes a failing operation's failure
through unchanged, and the facade attaches no handler, so a wire failure
propagates with no effects. On success the three envelope shapes collapse
to a flat list exactly as the conditional chain does. -/
def getDetailedReportT (wire : Except ApiError JVal) :
    Except ApiError (List JVal) × Effects :=
  match wire with
  | .error e => (.error e, noEffects)
  | .ok response =>
    (.ok (match asArray response with
      | some xs => xs
      | none =>
        if isTruthy response then
          match asArray (jGet response "data") with
          | some xs => xs
          | none =>
            if isTruthy (jGet response "results") then
              match asArray (jGet response "results") with
              | some xs => xs
              | none => []
            else []
        else []), noEffects)

/-! ## Timer lifecycle -/

/-- The payload `startTimer` submits (ApiManager.ts:303-315): synthetic
negative duration `-now`, `stop: null`, fixed `created_with` tag. -/
def startTimerPayload (entry : TimeEntryStart) (now : Nat) (startStr : String)
    (workspaceId : Nat) : NewTimeEntry :=
  { billable := entry.billable.getD false
    created_with := "Toggl Track for Obsidian"
    description := entry.description
    duration := -(now : Int)
    project_id := entry.project_id
    start := startStr
    stop := none
    tags := entry.tags.getD []
    workspace_id := workspaceId }

/-- The result object `startTimer` builds (ApiManager.ts:322-335): spread of
the caller-supplied entry, then the remote result's fields. -/
def startTimerResult (entry : TimeEntryStart) (result : WireTimeEntry) : TimeEntry :=
  { at_ := result.at_
    billable := entry.billable
    description := entry.description
    duration := result.duration
    id := result.id
    project_id := result.project_id
    server_deleted_at := result.server_deleted_at
    start := result.start
    stop := result.stop
    tag_ids := result.tag_ids.getD []
    tags := result.tags.getD []
    user_id := result.user_id
    workspace_id := result.workspace_id }

/-- Embedding of `TogglAPI.startTimer` (ApiManager.ts:300-336). -/
def startTimerT (entry : TimeEntryStart) (wire : Except ApiError WireTimeEntry) :
    Except ApiError TimeEntry × Effects :=
  match wire with
  | .error e => (.error e, handleError e)
  | .ok result => (.ok (startTimerResult entry result), noEffects)

/-- The result object `stopTimer` builds (ApiManager.ts:348-361). -/
def stopTimerResult (entry : TimeEntry) (result : WireTimeEntry) : TimeEntry :=
  { at_ := result.at_
    billable := entry.billable
    description := entry.description
    duration := result.duration
    id := result.id
    project_id := result.project_id
    server_deleted_at := result.server_deleted_at
    start := result.start
    stop := result.stop
    tag_ids := result.tag_ids.getD []
    tags := result.tags.getD []
    user_id := result.user_id
    workspace_id := result.workspace_id }

/-- Embedding of `TogglAPI.stopTimer` (ApiManager.ts:341-362). -/
def stopTimerT (entry : TimeEntry) (wire : Except ApiError WireTimeEntry) :
    Except ApiError TimeEntry × Effects :=
  match wire with
  | .error e => (.error e, handleError e)
  | .ok result => (.ok (stopTimerResult entry result), noEffects)

/-- The normalized entry `getCurrentTimer` builds (ApiManager.ts:375-388):
fresh object, `description` defaulted to the empty string, no `billable`
key. -/
def currentTimerEntry (r : WireTimeEntry) : TimeEntry :=
  { at_ := r.at_
    billable := none
    description := r.description.getD ""
    duration := r.duration
    id := r.id
    project_id := r.project_id
    server_deleted_at := r.server_deleted_at
    start := r.start
    stop := r.stop
    tag_ids := r.tag_ids.getD []
    tags := r.tags.getD []
    user_id := r.user_id
    workspace_id := r.workspace_id }

/-- Embedding of `TogglAPI.getCurrentTimer` (ApiManager.ts:367-389): no
error handler of any kind, so a wire failure propagates with no effects;
an absent body yields `null`. -/
def getCurrentTimerT (wire : Except ApiError (Option WireTimeEntry)) :
    Except ApiError (Option TimeEntry) × Effects :=
  match wire with
  | .error e => (.error e, noEffects)
  | .ok result =>
    match result with
    | none => (.ok none, noEffects)
    | some r => (.ok (some (currentTimerEntry r)), noEffects)

/-! ## Sample values used by witnesses and counterexamples -/

/-- A completed sample entry (project 42, description "Writing"). -/
def sampleEntryA : WireTimeEntry :=
  { id := 1, workspace_id := 10, project_id := some 42, billable := false
    start := "2026-01-01T08:00:00Z", stop := some "2026-01-01T09:00:00Z"
    duration := 3600, description := some "Writing", tags := none
    tag_ids := some [3], at_ := "2026-01-01T09:00:00Z"
    server_deleted_at := none, user_id := 7 }

/-- A running sample entry with no project and the same description. -/
def sampleEntryB : WireTimeEntry :=
  { id := 2, workspace_id := 10, project_id := none, billable := false
    start := "2026-01-02T08:00:00Z", stop := none
    duration := -100, description := some "Writing", tags := none
    tag_ids := none, at_ := "2026-01-02T08:00:00Z"
    server_deleted_at := none, user_id := 7 }

/-- First of two entries sharing the same id but different descriptions. -/
def dupIdEntryA : WireTimeEntry :=
  { id := 1, workspace_id := 10, project_id := none, billable := false
    start := "s1", stop := none, duration := -5, description := some "a"
    tags := none, tag_ids := none, at_ := "t1", server_deleted_at := none
    user_id := 7 }

/-- Second of two entries sharing the same id but different descriptions. -/
def dupIdEntryB : WireTimeEntry :=
  { id := 1, workspace_id := 10, project_id := none, billable := false
    start := "s2", stop := none, duration := -6, description := some "b"
    tags := none, tag_ids := none, at_ := "t2", server_deleted_at := none
    user_id := 7 }

/-- An active sample project with a `client_id` but no `cid` and no `wid`. -/
def sampleProjectActive : WireProject :=
  { id := 1, workspace_id := 10, wid := none, client_id := some 5, cid := none
    name := "Proj", is_private := false, active := true, at_ := "t"
    color := "#ffffff", actual_hours := none, rate_last_updated := none
    server_deleted_at := none }

/-- An inactive sample project. -/
def sampleProjectInactive : WireProject :=
  { id := 2, workspace_id := 10, wid := some 11, client_id := none, cid := some 6
    name := "Old", is_private := false, active := false, at_ := "t"
    color := "#000000", actual_hours := some 4, rate_last_updated := none
    server_deleted_at := none }

/-- A sample caller-supplied start request. -/
def sampleStart : TimeEntryStart :=
  { description := "Writing", project_id := some 42, billable := none, tags := none }

/-- A sample stopped wire entry (non-null stop, non-negative duration). -/
def sampleStopped : WireTimeEntry :=
  { id := 9, workspace_id := 10, project_id := some 42, billable := false
    start := "2026-01-01T08:00:00Z", stop := some "2026-01-01T09:00:00Z"
    duration := 3600, description := some "Writing", tags := some ["x"]
    tag_ids := some [3], at_ := "2026-01-01T09:00:00Z"
    server_deleted_at := none, user_id := 7 }

/-- A sample running wire entry (null stop, negative duration). -/
def sampleRunning : WireTimeEntry :=
  { id := 9, workspace_id := 10, project_id := some 42, billable := false
    start := "2026-01-01T08:00:00Z", stop := none
    duration := -1767254400, description := none, tags := none
    tag_ids := none, at_ := "2026-01-01T08:00:00Z"
    server_deleted_at := none, user_id := 7 }

/-- A sample stable time entry, as a caller would hand to `stopTimer`. -/
def sampleTimeEntry : TimeEntry :=
  { at_ := "2026-01-01T08:00:00Z", billable := some false
    description := "Writing", duration := -1767254400, id := 9
    project_id := some 42, server_deleted_at := none
    start := "2026-01-01T08:00:00Z", stop := none, tag_ids := [3]
    tags := ["x"], user_id := 7, workspace_id := 10 }

/-! ## Helper lemmas: the grouping fold -/

theorem groupEntries_append (l : List WireTimeEntry) (e : WireTimeEntry) :
    groupEntries (l ++ [e]) = addToGroups (groupEntries l) e := by
  simp [groupEntries, List.foldl_append]

theorem firstSeenKeys_append (ks : List String) (k : String) :
    firstSeenKeys (ks ++ [k]) =
      if k ∈ firstSeenKeys ks then firstSeenKeys ks else firstSeenKeys ks ++ [k] := by
  simp [firstSeenKeys, List.foldl_append]

theorem mem_firstSeenKeys (ks : List String) (k : String) :
    k ∈ firstSeenKeys ks ↔ k ∈ ks := by
  induction ks using List.reverseRecOn with
  | nil => simp [firstSeenKeys]
  | append_singleton l a ih =>
    rw [firstSeenKeys_append]
    by_cases h : a ∈ firstSeenKeys l
    · rw [if_pos h, ih]
      simp only [List.mem_append, List.mem_singleton]
      constructor
      · exact fun hk => Or.inl hk
      · rintro (hk | rfl)
        · exact hk
        · exact ih.mp h
    · rw [if_neg h]
      simp only [List.mem_append, List.mem_singleton, ih]

theorem nodup_firstSeenKeys (ks : List String) : (firstSeenKeys ks).Nodup := by
  induction ks using List.reverseRecOn with
  | nil => simp [firstSeenKeys]
  | append_singleton l a ih =>
    rw [firstSeenKeys_append]
    by_cases h : a ∈ firstSeenKeys l
    · simpa [h] using ih
    · rw [if_neg h]
      simp [List.nodup_append, ih, h]

theorem groupsSpec_fst (l : List WireTimeEntry) :
    (groupsSpec l).map Prod.fst = firstSeenKeys (l.map entryKey) := by
  rw [groupsSpec, List.map_map]
  have h : (Prod.fst ∘ fun k =>
      (k, (l.filter (fun e => entryKey e = k)).map mkOccurrence)) = id := by
    funext k
    rfl
  rw [h, List.map_id]

theorem groupsSpec_any (l : List WireTimeEntry) (k : String) :
    ((groupsSpec l).any (fun p => p.1 = k) = true) ↔
      k ∈ firstSeenKeys (l.map entryKey) := by
  rw [List.any_eq_true]
  constructor
  · rintro ⟨p, hp, hpk⟩
    simp only [decide_eq_true_eq] at hpk
    have : p.1 ∈ (groupsSpec l).map Prod.fst := List.mem_map_of_mem Prod.fst hp
    rwa [groupsSpec_fst, hpk] at this
  · intro hk
    refine ⟨(k, (l.filter (fun e => entryKey e = k)).map mkOccurrence), ?_, by simp⟩
    simp only [groupsSpec, List.mem_map]
    exact ⟨k, hk, rfl⟩

theorem groupEntries_eq_spec (l : List WireTimeEntry) :
    groupEntries l = groupsSpec l := by
  induction l using List.reverseRecOn with
  | nil => rfl
  | append_singleton l e ih =>
    rw [groupEntries_append, ih]
    by_cases hk : entryKey e ∈ firstSeenKeys (l.map entryKey)
    · have hany : (groupsSpec l).any (fun p => p.1 = entryKey e) = true :=
        (groupsSpec_any l (entryKey e)).mpr hk
      rw [addToGroups, if_pos hany]
      simp only [groupsSpec, List.map_append, List.map_cons, List.map_nil,
        firstSeenKeys_append, if_pos hk, List.map_map]
      refine List.map_congr_left ?_
      intro k' _
      simp only [Function.comp_apply, List.filter_append]
      by_cases hkk : k' = entryKey e
      · subst hkk
        simp
      · have hne : ¬ entryKey e = k' := fun h => hkk h.symm
        simp [hkk, hne]
    · have hany : ¬ ((groupsSpec l).any (fun p => p.1 = entryKey e) = true) := by
        rw [groupsSpec_any]
        exact hk
      rw [addToGroups, if_neg hany]
      have hnotin : ∀ x ∈ l, ¬ entryKey x = entryKey e := by
        intro x hx hex
        exact hk ((mem_firstSeenKeys _ _).mpr (hex ▸ List.mem_map_of_mem entryKey hx))
      simp only [groupsSpec, List.map_append, List.map_cons, List.map_nil,
        firstSeenKeys_append, if_neg hk, List.map_append]
      congr 1
      · refine List.map_congr_left ?_
        intro k' hk'
        have hkk : ¬ (entryKey e = k') := by
          intro h
          exact hk (h ▸ hk')
        simp [List.filter_append, hkk]
      · simp only [List.map_cons, List.map_nil, List.filter_append]
        have : l.filter (fun x => entryKey x = entryKey e) = [] := by
          rw [List.filter_eq_nil_iff]
          intro a ha
          simpa using hnotin a ha
        simp [this]

theorem sum_map_zero (K : List String) :
    (K.map (fun _ => (0 : Nat))).sum = 0 := by
  induction K with
  | nil => rfl
  | cons a t ih => simp [ih]

theorem sum_map_add (K : List String) (f g : String → Nat) :
    (K.map (fun k => f k + g k)).sum = (K.map f).sum + (K.map g).sum := by
  induction K with
  | nil => rfl
  | cons a t ih =>
    simp only [List.map_cons, List.sum_cons, ih]
    omega

theorem sum_map_ite_zero (K : List String) (a : String) (h : a ∉ K) :
    (K.map (fun k => if a = k then (1 : Nat) else 0)).sum = 0 := by
  induction K with
  | nil => rfl
  | cons b t ih =>
    simp only [List.mem_cons, not_or] at h
    simp [h.1, ih h.2]

theorem sum_map_ite_one (K : List String) (a : String) (hnd : K.Nodup) (ha : a ∈ K) :
    (K.map (fun k => if a = k then (1 : Nat) else 0)).sum = 1 := by
  induction K with
  | nil => cases ha
  | cons b t ih =>
    rcases List.mem_cons.mp ha with rfl | hat
    · have hnt : a ∉ t := (List.nodup_cons.mp hnd).1
      simp [sum_map_ite_zero t a hnt]
    · have hab : ¬ a = b := by
        rintro rfl
        exact (List.nodup_cons.mp hnd).1 hat
      simp [hab, ih (List.nodup_cons.mp hnd).2 hat]

theorem sum_countP_firstSeen (l : List WireTimeEntry) (K : List String)
    (hnd : K.Nodup) (hcov : ∀ e ∈ l, entryKey e ∈ K) :
    (K.map (fun k => l.countP (fun e => entryKey e = k))).sum = l.length := by
  induction l with
  | nil =>
    simp only [List.countP_nil]
    exact sum_map_zero K
  | cons e t ih =>
    have hcov' : ∀ x ∈ t, entryKey x ∈ K := fun x hx => hcov x (List.mem_cons_of_mem e hx)
    simp only [List.countP_cons, decide_eq_true_eq]
    rw [sum_map_add K (fun k => t.countP (fun x => entryKey x = k))
      (fun k => if entryKey e = k then 1 else 0)]
    rw [ih hcov', sum_map_ite_one K (entryKey e) hnd (hcov e (List.mem_cons_self e t))]
    simp [Nat.add_comm]

theorem groupsSpec_pos_length (l : List WireTimeEntry) :
    ∀ p ∈ groupsSpec l, 0 < p.2.length := by
  intro p hp
  simp only [groupsSpec, List.mem_map] at hp
  obtain ⟨k, hk, rfl⟩ := hp
  simp only [List.length_map]
  rw [mem_firstSeenKeys] at hk
  obtain ⟨e, he, hke⟩ := List.mem_map.mp hk
  have hmem : e ∈ l.filter (fun x => entryKey x = k) := by
    simp [List.mem_filter, he, hke]
  calc 0 < 1 := Nat.one_pos
    _ ≤ (l.filter (fun x => entryKey x = k)).length :=
      List.length_pos.mpr (List.ne_nil_of_mem hmem)

theorem filter_groupEntries (l : List WireTimeEntry) :
    (groupEntries l).filter (fun p => 0 < p.2.length) = groupEntries l := by
  rw [List.filter_eq_self]
  intro p hp
  rw [groupEntries_eq_spec] at hp
  simpa using groupsSpec_pos_length l p hp

theorem find?_congr_on {α : Type} (l : List α) (p q : α → Bool)
    (h : ∀ x ∈ l, p x = q x) : l.find? p = l.find? q := by
  induction l with
  | nil => rfl
  | cons a t ih =>
    have ha := h a (List.mem_cons_self a t)
    cases hq : q a
    · rw [List.find?_cons_of_neg _ (by rw [ha, hq]; exact Bool.false_ne_true),
        List.find?_cons_of_neg _ (by rw [hq]; exact Bool.false_ne_true)]
      exact ih (fun x hx => h x (List.mem_cons_of_mem a hx))
    · rw [List.find?_cons_of_pos _ (by rw [ha, hq]),
        List.find?_cons_of_pos _ (by rw [hq])]

theorem find?_group (l : List WireTimeEntry) (k : String)
    (hid : (l.map (fun e => e.id)).Nodup) :
    l.find? (fun e => ((l.filter (fun x => entryKey x = k)).map mkOccurrence).any
        (fun o => o.id = e.id))
      = l.find? (fun e => entryKey e = k) := by
  apply find?_congr_on
  intro e he
  by_cases hek : entryKey e = k
  · have hmemf : e ∈ l.filter (fun x => entryKey x = k) := by
      simp [List.mem_filter, he, hek]
    have hany : ((l.filter (fun x => entryKey x = k)).map mkOccurrence).any
        (fun o => o.id = e.id) = true := by
      rw [List.any_eq_true]
      exact ⟨mkOccurrence e, List.mem_map_of_mem mkOccurrence hmemf, by simp [mkOccurrence]⟩
    rw [hany]
    simp [hek]
  · have hany : ((l.filter (fun x => entryKey x = k)).map mkOccurrence).any
        (fun o => o.id = e.id) = false := by
      rw [← Bool.not_eq_true, List.any_eq_true]
      rintro ⟨o, ho, hoe⟩
      obtain ⟨x, hxf, rfl⟩ := List.mem_map.mp ho
      obtain ⟨hxl, hxk⟩ := List.mem_filter.mp hxf
      simp only [decide_eq_true_eq] at hxk hoe
      have hxid : x.id = e.id := hoe
      have hxeq : x = e := List.inj_on_of_nodup_map hid hxl he hxid
      exact hek (hxeq ▸ hxk)
    rw [hany]
    simp [hek]

theorem entryKey_ne_empty (e : WireTimeEntry) : entryKey e ≠ "" := by
  unfold entryKey
  intro h
  have hlen := congrArg String.length h
  simp only [String.length_append, show ("_" : String).length = 1 from rfl,
    show ("" : String).length = 0 from rfl] at hlen
  omega

theorem getRecent_eq (response : List WireTimeEntry) :
    getRecentTimeEntries response = ((groupsSpec response).enum).map
      (fun ie => buildGroup response ie.1 ie.2.2) := by
  unfold getRecentTimeEntries
  rw [filter_groupEntries, groupEntries_eq_spec]

/-- C3: the groups returned by `getRecentTimeEntries` partition the fetched
raw entries — every group's occurrence list has length at least one, and the
occurrence counts over all groups sum to the number of fetched entries whose
grouping key is non-empty (every key is non-empty, so that is all of them). -/
theorem getRecentTimeEntries_partition (response : List WireTimeEntry) :
    (∀ g ∈ getRecentTimeEntries response, 1 ≤ g.time_entries.length) ∧
    ((getRecentTimeEntries response).map (fun g => g.time_entries.length)).sum
      = (response.filter (fun e => entryKey e ≠ "")).length := by
  constructor
  · intro g hg
    rw [getRecent_eq] at hg
    obtain ⟨ie, hie, rfl⟩ := List.mem_map.mp hg
    have hpos := groupsSpec_pos_length response ie.2 (List.snd_mem_of_mem_enum hie)
    exact hpos
  · rw [getRecent_eq, List.map_map]
    have hfil : response.filter (fun e => entryKey e ≠ "") = response := by
      rw [List.filter_eq_self]
      intro a _
      simpa using entryKey_ne_empty a
    rw [hfil]
    have hcomp1 : (List.map
        ((fun g : SearchTimeEntriesResponseItem => g.time_entries.length) ∘
          (fun ie => buildGroup response ie.1 ie.2.2))
        ((groupsSpec response).enum))
        = List.map (fun p => p.2.length) ((groupsSpec response).enum.map Prod.snd) := by
      rw [List.map_map]
      rfl
    rw [hcomp1, List.enum_map_snd, groupsSpec, List.map_map]
    have hcomp2 : ((fun p : String × List OccurrenceItem => p.2.length) ∘
        (fun k => (k, (response.filter (fun e => entryKey e = k)).map mkOccurrence)))
        = fun k => response.countP (fun e => entryKey e = k) := by
      funext k
      simp only [Function.comp_apply, List.length_map]
      exact (List.countP_eq_length_filter _ _).symm
    rw [hcomp2]
    exact sum_countP_firstSeen response (firstSeenKeys (response.map entryKey))
      (nodup_firstSeenKeys _)
      (fun e he => (mem_firstSeenKeys _ _).mpr (List.mem_map_of_mem entryKey he))

/-- Witness: the partition property evaluated on a concrete two-entry fetch. -/
theorem getRecentTimeEntries_partition_witness :
    (∀ g ∈ getRecentTimeEntries [sampleEntryA, sampleEntryB],
      1 ≤ g.time_entries.length) ∧
    ((getRecentTimeEntries [sampleEntryA, sampleEntryB]).map
      (fun g => g.time_entries.length)).sum
      = ([sampleEntryA, sampleEntryB].filter (fun e => entryKey e ≠ "")).length :=
  getRecentTimeEntries_partition [sampleEntryA, sampleEntryB]

theorem getRecent_length (response : List WireTimeEntry) :
    (getRecentTimeEntries response).length
      = (firstSeenKeys (response.map entryKey)).length := by
  rw [getRecent_eq]
  simp [groupsSpec, List.enum_length]

theorem getRecent_get (response : List WireTimeEntry) (i : Nat)
    (hi : i < (getRecentTimeEntries response).length)
    (hk : i < (firstSeenKeys (response.map entryKey)).length) :
    (getRecentTimeEntries response).get ⟨i, hi⟩
      = buildGroup response i ((response.filter (fun e =>
          entryKey e = (firstSeenKeys (response.map entryKey)).get ⟨i, hk⟩)).map
            mkOccurrence) := by
  rw [List.get_of_eq (getRecent_eq response) ⟨i, hi⟩]
  rw [List.get_eq_getElem, List.getElem_map, List.getElem_enum]
  simp only [groupsSpec, List.getElem_map, List.get_eq_getElem]

/-- C8 (amended): the groups returned by `getRecentTimeEntries` appear in
first-seen fold order (one group per first-seen key, in that order), each
group's occurrence list is the input-order sublist of entries with that key,
and `row_number` is the 1-based position in fold order — all of this for
every input. When additionally the fetched entries have pairwise distinct
ids, each group also carries the (falsy-defaulted) metadata of its first
constituent entry — the first fetched entry with the group's key. Without
the distinct-id proviso the metadata part fails, see the counterexample. -/
theorem getRecentTimeEntries_order_metadata (response : List WireTimeEntry) :
    (getRecentTimeEntries response).length
      = (firstSeenKeys (response.map entryKey)).length ∧
    ∀ i (hi : i < (getRecentTimeEntries response).length)
      (hk : i < (firstSeenKeys (response.map entryKey)).length),
      ((getRecentTimeEntries response).get ⟨i, hi⟩).row_number = i + 1 ∧
      ((getRecentTimeEntries response).get ⟨i, hi⟩).time_entries
        = (response.filter (fun e =>
            entryKey e = (firstSeenKeys (response.map entryKey)).get ⟨i, hk⟩)).map
              mkOccurrence ∧
      ((response.map (fun e => e.id)).Nodup →
        ∃ f, response.find? (fun e =>
            entryKey e = (firstSeenKeys (response.map entryKey)).get ⟨i, hk⟩)
              = some f ∧
          ((getRecentTimeEntries response).get ⟨i, hi⟩).description
            = f.description.getD "" ∧
          ((getRecentTimeEntries response).get ⟨i, hi⟩).project_id
            = (match f.project_id with
               | some p => if p = 0 then none else some p
               | none => none) ∧
          ((getRecentTimeEntries response).get ⟨i, hi⟩).user_id = f.user_id ∧
          ((getRecentTimeEntries response).get ⟨i, hi⟩).tag_ids
            = (f.tag_ids.getD []).map toString) := by
  refine ⟨getRecent_length response, ?_⟩
  intro i hi hk
  have hkK : (firstSeenKeys (response.map entryKey)).get ⟨i, hk⟩
      ∈ firstSeenKeys (response.map entryKey) := List.get_mem _ _ _
  rw [getRecent_get response i hi hk]
  set k := (firstSeenKeys (response.map entryKey)).get ⟨i, hk⟩ with hkdef
  refine ⟨rfl, rfl, ?_⟩
  intro hid
  have hfind : response.find? (fun e =>
      ((response.filter (fun x => entryKey x = k)).map mkOccurrence).any
        (fun o => o.id = e.id))
      = response.find? (fun e => entryKey e = k) := find?_group response k hid
  have hkmem : k ∈ response.map entryKey := (mem_firstSeenKeys _ _).mp hkK
  obtain ⟨e0, he0, hke0⟩ := List.mem_map.mp hkmem
  have hsome : (response.find? (fun e => entryKey e = k)).isSome := by
    rw [List.find?_isSome]
    exact ⟨e0, he0, by simp [hke0]⟩
  obtain ⟨f, hf⟩ := Option.isSome_iff_exists.mp hsome
  refine ⟨f, hf, ?_, ?_, ?_, ?_⟩
  · have hd : (buildGroup response i
        ((response.filter (fun x => entryKey x = k)).map mkOccurrence)).description
        = ((response.find? (fun e =>
            ((response.filter (fun x => entryKey x = k)).map mkOccurrence).any
              (fun o => o.id = e.id))).bind (fun g => g.description)).getD "" := rfl
    rw [hd, hfind, hf]
    rfl
  · have hd : (buildGroup response i
        ((response.filter (fun x => entryKey x = k)).map mkOccurrence)).project_id
        = (match response.find? (fun e =>
            ((response.filter (fun x => entryKey x = k)).map mkOccurrence).any
              (fun o => o.id = e.id)) with
           | some g =>
             (match g.project_id with
              | some p => if p = 0 then none else some p
              | none => none)
           | none => none) := rfl
    rw [hd, hfind, hf]
  · have hd : (buildGroup response i
        ((response.filter (fun x => entryKey x = k)).map mkOccurrence)).user_id
        = ((response.find? (fun e =>
            ((response.filter (fun x => entryKey x = k)).map mkOccurrence).any
              (fun o => o.id = e.id))).map (fun g => g.user_id)).getD 0 := rfl
    rw [hd, hfind, hf]
    rfl
  · have hd : (buildGroup response i
        ((response.filter (fun x => entryKey x = k)).map mkOccurrence)).tag_ids
        = (((response.find? (fun e =>
            ((response.filter (fun x => entryKey x = k)).map mkOccurrence).any
              (fun o => o.id = e.id))).bind (fun g => g.tag_ids)).getD []).map
                toString := rfl
    rw [hd, hfind, hf]
    rfl

/-- Witness: the ordering property evaluated at position 0 of a concrete
two-entry fetch, and the metadata clause with its distinct-id hypothesis
discharged by computation. -/
theorem getRecentTimeEntries_order_metadata_witness :
    ((getRecentTimeEntries [sampleEntryA, sampleEntryB]).length
      = (firstSeenKeys ([sampleEntryA, sampleEntryB].map entryKey)).length) ∧
    (([sampleEntryA, sampleEntryB].map (fun e => e.id)).Nodup) ∧
    (((getRecentTimeEntries [sampleEntryA, sampleEntryB]).get
        ⟨0, by decide⟩).row_number = 1) ∧
    (∃ f, [sampleEntryA, sampleEntryB].find? (fun e =>
        entryKey e = (firstSeenKeys ([sampleEntryA, sampleEntryB].map entryKey)).get
          ⟨0, by decide⟩) = some f ∧
      ((getRecentTimeEntries [sampleEntryA, sampleEntryB]).get
          ⟨0, by decide⟩).description = f.description.getD "" ∧
      ((getRecentTimeEntries [sampleEntryA, sampleEntryB]).get
          ⟨0, by decide⟩).project_id
        = (match f.project_id with
           | some p => if p = 0 then none else some p
           | none => none) ∧
      ((getRecentTimeEntries [sampleEntryA, sampleEntryB]).get
          ⟨0, by decide⟩).user_id = f.user_id ∧
      ((getRecentTimeEntries [sampleEntryA, sampleEntryB]).get
          ⟨0, by decide⟩).tag_ids = (f.tag_ids.getD []).map toString) :=
  ⟨(getRecentTimeEntries_order_metadata [sampleEntryA, sampleEntryB]).1,
   by decide,
   ((getRecentTimeEntries_order_metadata [sampleEntryA, sampleEntryB]).2 0
      (by decide) (by decide)).1,
   ((getRecentTimeEntries_order_metadata [sampleEntryA, sampleEntryB]).2 0
      (by decide) (by decide)).2.2 (by decide)⟩

/-- Counterexample to C8 as stated: with two fetched entries sharing one id
but having different descriptions, the fold produces two groups; the second
group's only constituent entry is `dupIdEntryB` (description "b"), yet the
group reports description "a", taken from the first entry with the shared
id. So a group does not always carry the metadata of its first constituent
entry. -/
theorem getRecentTimeEntries_duplicate_id_metadata :
    ((getRecentTimeEntries [dupIdEntryA, dupIdEntryB]).map
      (fun g => g.description)) = ["a", "a"] ∧
    (([dupIdEntryA, dupIdEntryB].filter
      (fun e => entryKey e = "7_no_project_b")).map (fun e => e.description))
      = [some "b"] ∧
    ("a" : String) ≠ "b" := by
  refine ⟨by decide, by decide, by decide⟩

/-- C1: `getDetailedReport` normalizes the three accepted envelope shapes —
a bare array, an object with a `data` array, an object with a `results`
array — to the same flat list, and normalizes any other shape (null,
undefined, a primitive, or an object carrying neither array) to the empty
list. -/
theorem getDetailedReport_envelope_normalization
    (xs : List JVal) (fields : List (String × JVal)) (n : Int) (s : String)
    (b : Bool) :
    (getDetailedReportT (.ok (.arr xs))).1 = .ok xs ∧
    (jGet (.obj fields) "data" = .arr xs →
      (getDetailedReportT (.ok (.obj fields))).1 = .ok xs) ∧
    (asArray (jGet (.obj fields) "data") = none →
      jGet (.obj fields) "results" = .arr xs →
      (getDetailedReportT (.ok (.obj fields))).1 = .ok xs) ∧
    (asArray (jGet (.obj fields) "data") = none →
      asArray (jGet (.obj fields) "results") = none →
      (getDetailedReportT (.ok (.obj fields))).1 = .ok ([] : List JVal)) ∧
    (getDetailedReportT (.ok .null)).1 = .ok ([] : List JVal) ∧
    (getDetailedReportT (.ok .undefined)).1 = .ok ([] : List JVal) ∧
    (getDetailedReportT (.ok (.num n))).1 = .ok ([] : List JVal) ∧
    (getDetailedReportT (.ok (.str s))).1 = .ok ([] : List JVal) ∧
    (getDetailedReportT (.ok (.bool b))).1 = .ok ([] : List JVal) := by
  have h0 : asArray (JVal.obj fields) = none := rfl
  have ht : isTruthy (JVal.obj fields) = true := rfl
  refine ⟨rfl, ?_, ?_, ?_, rfl, rfl, ?_, ?_, ?_⟩
  · intro h
    have h1' : asArray (jGet (JVal.obj fields) "data") = some xs := by
      rw [h]
      rfl
    simp [getDetailedReportT, h0, ht, h1']
  · intro h1 h2
    have h2' : asArray (jGet (JVal.obj fields) "results") = some xs := by
      rw [h2]
      rfl
    have ht2 : isTruthy (jGet (JVal.obj fields) "results") = true := by
      rw [h2]
      rfl
    simp [getDetailedReportT, h0, ht, h1, h2', ht2]
  · intro h1 h2
    simp only [getDetailedReportT, h0, ht, h1, h2]
    simp
  · simp only [getDetailedReportT,
      show asArray (JVal.num n) = none from rfl,
      show jGet (JVal.num n) "data" = .undefined from rfl,
      show jGet (JVal.num n) "results" = .undefined from rfl,
      show asArray JVal.undefined = none from rfl,
      show isTruthy JVal.undefined = false from rfl]
    simp
  · simp only [getDetailedReportT,
      show asArray (JVal.str s) = none from rfl,
      show jGet (JVal.str s) "data" = .undefined from rfl,
      show jGet (JVal.str s) "results" = .undefined from rfl,
      show asArray JVal.undefined = none from rfl,
      show isTruthy JVal.undefined = false from rfl]
    simp
  · simp only [getDetailedReportT,
      show asArray (JVal.bool b) = none from rfl,
      show jGet (JVal.bool b) "data" = .undefined from rfl,
      show jGet (JVal.bool b) "results" = .undefined from rfl,
      show asArray JVal.undefined = none from rfl,
      show isTruthy JVal.undefined = false from rfl]
    simp

/-- Witness: the three envelope shapes evaluated on concrete objects, with
each hypothesis discharged by computation. -/
theorem getDetailedReport_envelope_normalization_witness :
    ((getDetailedReportT (.ok (.obj [("data", .arr [.num 1])]))).1
      = .ok [JVal.num 1]) ∧
    ((getDetailedReportT (.ok (.obj [("results", .arr [.num 1])]))).1
      = .ok [JVal.num 1]) ∧
    ((getDetailedReportT (.ok (.obj [("foo", .null)]))).1
      = .ok ([] : List JVal)) :=
  ⟨(getDetailedReport_envelope_normalization [.num 1] [("data", .arr [.num 1])]
      0 "" false).2.1 rfl,
   (getDetailedReport_envelope_normalization [.num 1] [("results", .arr [.num 1])]
      0 "" false).2.2.1 rfl rfl,
   (getDetailedReport_envelope_normalization [] [("foo", .null)]
      0 "" false).2.2.2.1 rfl rfl⟩

theorem jProp_cons (p : String × JVal) (ps : List (String × JVal)) (k : String) :
    jProp (p :: ps) k = if p.1 = k then p.2 else jProp ps k := by
  by_cases h : p.1 = k
  · unfold jProp
    rw [List.find?_cons_of_pos _ (by simp [h]), if_pos h]
  · unfold jProp
    rw [List.find?_cons_of_neg _ (by simp [h]), if_neg h]

theorem jProp_objSet_ne (o : List (String × JVal)) (k k' : String) (v : JVal)
    (h : k' ≠ k) : jProp (objSet o k' v) k = jProp o k := by
  induction o with
  | nil =>
    simp only [objSet, jProp_cons, if_neg h]
  | cons p ps ih =>
    simp only [objSet]
    by_cases hp : p.1 = k'
    · rw [if_pos hp, jProp_cons, if_neg h, jProp_cons, if_neg (by rw [hp]; exact h)]
    · rw [if_neg hp, jProp_cons, jProp_cons]
      by_cases hpk : p.1 = k
      · rw [if_pos hpk, if_pos hpk]
      · rw [if_neg hpk, if_neg hpk, ih]

theorem jProp_spreadInto_ne (o r : List (String × JVal)) (k : String)
    (h : k ∉ r.map Prod.fst) : jProp (spreadInto o r) k = jProp o k := by
  induction r generalizing o with
  | nil => rfl
  | cons p rs ih =>
    simp only [List.map_cons, List.mem_cons, not_or] at h
    show jProp (spreadInto (objSet o p.1 p.2) rs) k = jProp o k
    rw [ih _ h.2, jProp_objSet_ne _ _ _ _ (fun hh => h.1 hh.symm)]

/-- C2 (amended): when the remote summary response carries no own
`resolution` property, the `resolution` field of `getSummaryTimeChart`'s
result is derived purely from the requested span with the thresholds
span ≤ 1 ⇒ "hour", span ≤ 7 ⇒ "day", span ≤ 31 ⇒ "day", otherwise "month".
When the response does carry a `resolution` property, the trailing spread of
the response overrides the derived value, so the field is not independent of
the remote response in general — see the counterexample. -/
theorem getSummaryTimeChart_resolution (s e : Int)
    (response : List (String × JVal)) :
    ("resolution" ∉ response.map Prod.fst →
      jProp (getSummaryTimeChart s e response) "resolution"
        = .str (getResolutionFromDateRange s e)) ∧
    ((getSummaryTimeChartT s e (.ok response)).1
      = .ok (getSummaryTimeChart s e response)) ∧
    (e - s ≤ 1 → getResolutionFromDateRange s e = "hour") ∧
    (1 < e - s → e - s ≤ 31 → getResolutionFromDateRange s e = "day") ∧
    (31 < e - s → getResolutionFromDateRange s e = "month") := by
  have hdef : getResolutionFromDateRange s e
      = (if e - s ≤ 1 then "hour" else if e - s ≤ 7 then "day"
         else if e - s ≤ 31 then "day" else "month") := rfl
  refine ⟨?_, rfl, ?_, ?_, ?_⟩
  · intro h
    rw [getSummaryTimeChart, jProp_spreadInto_ne _ _ _ h]
    rfl
  · intro h
    rw [hdef, if_pos h]
  · intro h1 h2
    rw [hdef]
    split_ifs <;> first | rfl | omega
  · intro h
    rw [hdef]
    split_ifs <;> first | rfl | omega

/-- Witness: the derived resolution on a response without a `resolution`
key, and the four boundary spans 1, 7, 31 and 32. -/
theorem getSummaryTimeChart_resolution_witness :
    jProp (getSummaryTimeChart 0 40 [("total_seconds", JVal.num 5)]) "resolution"
      = .str (getResolutionFromDateRange 0 40) ∧
    getResolutionFromDateRange 0 1 = "hour" ∧
    getResolutionFromDateRange 0 7 = "day" ∧
    getResolutionFromDateRange 0 31 = "day" ∧
    getResolutionFromDateRange 0 32 = "month" :=
  ⟨(getSummaryTimeChart_resolution 0 40 [("total_seconds", JVal.num 5)]).1
      (by decide),
   (getSummaryTimeChart_resolution 0 1 []).2.2.1 (by decide),
   (getSummaryTimeChart_resolution 0 7 []).2.2.2.1 (by decide) (by decide),
   (getSummaryTimeChart_resolution 0 31 []).2.2.2.1 (by decide) (by decide),
   (getSummaryTimeChart_resolution 0 32 []).2.2.2.2 (by decide)⟩

/-- Counterexample to C2 as stated: on a remote response that itself carries
a `resolution` property, the trailing spread `...response` overrides the
derived value, so the result's `resolution` is "banana" where the date span
alone would give "hour" — the field is not a pure function of the dates. -/
theorem getSummaryTimeChart_resolution_override :
    jProp (getSummaryTimeChart 0 0 [("resolution", .str "banana")]) "resolution"
      = .str "banana" ∧
    getResolutionFromDateRange 0 0 = "hour" ∧
    ("banana" : String) ≠ "hour" :=
  ⟨rfl, rfl, by decide⟩

/-- C4: the project listing exposes exactly the active projects of the wire
response, never an entry with `active == false`, each back-filled with
`actual_hours` defaulting to 0, `cid` aliased from `client_id`, the nullable
rate/deletion fields defaulting to null, and `wid` aliased from
`workspace_id`. -/
theorem getProjects_active_only (ps : List WireProject) :
    ((getProjectsT (.ok ps)).1
      = .ok ((ps.filter (fun p => p.active)).map normalizeProject)) ∧
    (∀ q ∈ (ps.filter (fun p => p.active)).map normalizeProject,
      q.active = true) ∧
    (∀ p : WireProject, (normalizeProject p).active = p.active ∧
      (normalizeProject p).actual_hours = p.actual_hours.getD 0 ∧
      ((p.cid = none ∨ p.cid = some 0) → (normalizeProject p).cid = p.client_id) ∧
      (∀ c, p.cid = some c → c ≠ 0 → (normalizeProject p).cid = some c) ∧
      (p.rate_last_updated = none → (normalizeProject p).rate_last_updated = none) ∧
      (p.server_deleted_at = none → (normalizeProject p).server_deleted_at = none) ∧
      (p.wid = none → (normalizeProject p).wid = p.workspace_id)) := by
  refine ⟨rfl, ?_, ?_⟩
  · intro q hq
    obtain ⟨p, hp, rfl⟩ := List.mem_map.mp hq
    obtain ⟨_, hact⟩ := List.mem_filter.mp hp
    exact hact
  · intro p
    refine ⟨rfl, ?_, ?_, ?_, ?_, ?_, ?_⟩
    · show (match p.actual_hours with
        | some h => if h = 0 then 0 else h
        | none => 0) = p.actual_hours.getD 0
      cases p.actual_hours with
      | none => rfl
      | some h =>
        by_cases h0 : h = 0
        · simp [h0]
        · simp [h0]
    · rintro (h | h) <;> simp [normalizeProject, h]
    · intro c hc hc0
      simp [normalizeProject, hc, hc0]
    · intro h
      simp [normalizeProject, h]
    · intro h
      simp [normalizeProject, h]
    · intro h
      simp [normalizeProject, natOr, h]

/-- Witness: the project listing on one active and one inactive sample
project, and the `cid` aliasing on the active one. -/
theorem getProjects_active_only_witness :
    ((getProjectsT (.ok [sampleProjectActive, sampleProjectInactive])).1
      = .ok (([sampleProjectActive, sampleProjectInactive].filter
          (fun p => p.active)).map normalizeProject)) ∧
    (normalizeProject sampleProjectActive).cid = sampleProjectActive.client_id :=
  ⟨(getProjects_active_only [sampleProjectActive, sampleProjectInactive]).1,
   ((getProjects_active_only [sampleProjectActive]).2.2
      sampleProjectActive).2.2.1 (Or.inl rfl)⟩

/-- C5 (amended): every Wire Client operation routed through the shared
`request` helper (all entity-API operations) raises an error carrying the
status and raw response text on a status ≥ 400 response, logs every failure
with the failing method and URL before re-raising, and never returns a body
for a status ≥ 400 response. The two reports operations bypass `request`:
they return the parsed body whatever the status and log only a fixed message
on transport failure — see the counterexample. -/
theorem request_http_error (method url : String) (r : HttpResponse)
    (e : TransportError) :
    (400 ≤ r.status →
      request method url (.ok r)
        = (.error (.http r.status r.text), [requestLog method url])) ∧
    (r.status < 400 → request method url (.ok r) = (.ok r.json, [])) ∧
    (request method url (.error e)
      = (.error (.transport e), [requestLog method url])) ∧
    (∀ t j, (request method url t).1 = .ok j →
      ∃ r2, t = .ok r2 ∧ r2.status < 400 ∧ j = r2.json) := by
  refine ⟨?_, ?_, rfl, ?_⟩
  · intro h
    simp [request, h]
  · intro h
    simp [request, Nat.not_le.mpr h]
  · intro t j h
    match t with
    | .error e2 => simp [request] at h
    | .ok r2 =>
      by_cases hs : 400 ≤ r2.status
      · simp [request, hs] at h
      · simp [request, if_neg hs] at h
        exact ⟨r2, rfl, Nat.not_le.mp hs, h.symm⟩

/-- Witness: a status-500 entity-API response raises an HTTP error carrying
the status and text, with the method and URL logged. -/
theorem request_http_error_witness :
    (400 ≤ 500) ∧
    request "GET" "https://api.track.toggl.com/api/v9/workspaces"
        (.ok ⟨500, "Internal Server Error", .null⟩)
      = (.error (.http 500 "Internal Server Error"),
         [requestLog "GET" "https://api.track.toggl.com/api/v9/workspaces"]) :=
  ⟨by decide,
   (request_http_error "GET" "https://api.track.toggl.com/api/v9/workspaces"
      ⟨500, "Internal Server Error", .null⟩ (.err "x")).1 (by decide)⟩

/-- Counterexample to C5 as stated: the reports operations are Wire Client
operations, yet given a status-500 response they return the parsed body as a
success, raise nothing, and log nothing — the Wire Client does return a body
for a status ≥ 400 response. -/
theorem reports_bypass_status_check :
    (getDetailedReportWire (.ok ⟨500, "Internal Server Error", .str "body"⟩))
      = (.ok (.str "body"), []) ∧
    (getSummaryReportWire (.ok ⟨500, "Internal Server Error", .str "body"⟩))
      = (.ok (.str "body"), []) ∧
    400 ≤ 500 :=
  ⟨rfl, rfl, by decide⟩

/-- C10: the two reports-API wire operations never inspect the HTTP status:
for every response they return the parsed JSON body as a success — the
result does not depend on the status at all — and they raise only when the
transport itself throws. -/
theorem reports_wire_ignore_status (r : HttpResponse) (e : TransportError)
    (s1 s2 : Nat) (text : String) (j : JVal) :
    (getDetailedReportWire (.ok r)).1 = .ok r.json ∧
    (getSummaryReportWire (.ok r)).1 = .ok r.json ∧
    getDetailedReportWire (.ok ⟨s1, text, j⟩)
      = getDetailedReportWire (.ok ⟨s2, text, j⟩) ∧
    getSummaryReportWire (.ok ⟨s1, text, j⟩)
      = getSummaryReportWire (.ok ⟨s2, text, j⟩) ∧
    getDetailedReportWire (.error e)
      = (.error (.transport e), ["Detailed report request failed"]) ∧
    getSummaryReportWire (.error e)
      = (.error (.transport e), ["Summary report request failed"]) :=
  ⟨rfl, rfl, rfl, rfl, rfl, rfl⟩

/-- C6 (amended): every facade operation that attaches `handleError`
(workspaces, clients, projects, tags, recent entries, summary, time chart,
start, stop) logs a Wire Client failure, raises a user-visible notification,
and re-raises it. `getCurrentTimer` and the facade `getDetailedReport`
attach no handler and propagate the failure with no notification and no log,
and `getDailySummary` notifies and logs but recovers to an empty list — so
the claim's "every facade operation except getDailySummary" is too strong;
see the counterexample. -/
theorem facade_error_surfacing (e : ApiError) (widSetting : Nat)
    (entry : TimeEntryStart) (te : TimeEntry) (sd ed : Int) :
    ((getWorkspacesT (.error e)).1 = .error e ∧
      (getWorkspacesT (.error e)).2.notices ≠ [] ∧
      (getWorkspacesT (.error e)).2.logs ≠ []) ∧
    ((getClientsT widSetting (.error e)).1 = .error e ∧
      (getClientsT widSetting (.error e)).2.notices ≠ [] ∧
      (getClientsT widSetting (.error e)).2.logs ≠ []) ∧
    ((getProjectsT (.error e)).1 = .error e ∧
      (getProjectsT (.error e)).2.notices ≠ [] ∧
      (getProjectsT (.error e)).2.logs ≠ []) ∧
    ((getTagsT (.error e)).1 = .error e ∧
      (getTagsT (.error e)).2.notices ≠ [] ∧
      (getTagsT (.error e)).2.logs ≠ []) ∧
    ((getRecentTimeEntriesT (.error e)).1 = .error e ∧
      (getRecentTimeEntriesT (.error e)).2.notices ≠ [] ∧
      (getRecentTimeEntriesT (.error e)).2.logs ≠ []) ∧
    ((getSummaryT (.error e)).1 = .error e ∧
      (getSummaryT (.error e)).2.notices ≠ [] ∧
      (getSummaryT (.error e)).2.logs ≠ []) ∧
    ((getSummaryTimeChartT sd ed (.error e)).1 = .error e ∧
      (getSummaryTimeChartT sd ed (.error e)).2.notices ≠ [] ∧
      (getSummaryTimeChartT sd ed (.error e)).2.logs ≠ []) ∧
    ((startTimerT entry (.error e)).1 = .error e ∧
      (startTimerT entry (.error e)).2.notices ≠ [] ∧
      (startTimerT entry (.error e)).2.logs ≠ []) ∧
    ((stopTimerT te (.error e)).1 = .error e ∧
      (stopTimerT te (.error e)).2.notices ≠ [] ∧
      (stopTimerT te (.error e)).2.logs ≠ []) ∧
    (getCurrentTimerT (.error e) = (.error e, noEffects)) ∧
    (getDetailedReportT (.error e) = (.error e, noEffects)) ∧
    ((getDailySummaryT (.error e)).1 = .ok [] ∧
      (getDailySummaryT (.error e)).2.notices ≠ []) := by
  refine ⟨⟨rfl, ?_, ?_⟩, ⟨rfl, ?_, ?_⟩, ⟨rfl, ?_, ?_⟩, ⟨rfl, ?_, ?_⟩,
    ⟨rfl, ?_, ?_⟩, ⟨rfl, ?_, ?_⟩, ⟨rfl, ?_, ?_⟩, ⟨rfl, ?_, ?_⟩, ⟨rfl, ?_, ?_⟩,
    rfl, rfl, ⟨rfl, ?_⟩⟩
  all_goals exact List.cons_ne_nil _ _

/-- Witness: the surfacing behavior evaluated at a concrete HTTP error. -/
theorem facade_error_surfacing_witness :
    (getProjectsT (.error (.http 500 "oops"))).1 = .error (.http 500 "oops") ∧
    (getProjectsT (.error (.http 500 "oops"))).2.notices ≠ [] ∧
    (getProjectsT (.error (.http 500 "oops"))).2.logs ≠ [] :=
  (facade_error_surfacing (.http 500 "oops") 1 sampleStart sampleTimeEntry
    0 0).2.2.1

/-- Counterexample to C6 as stated: `getCurrentTimer` and the facade
`getDetailedReport` are facade operations other than `getDailySummary`, yet
a Wire Client failure propagates from them with no notification (and no
facade log) at all. -/
theorem getCurrentTimer_no_notice :
    getCurrentTimerT (.error (.http 500 "oops"))
      = (.error (.http 500 "oops"), noEffects) ∧
    getDetailedReportT (.error (.http 500 "oops"))
      = (.error (.http 500 "oops"), noEffects) ∧
    noEffects.notices = [] ∧
    noEffects.logs = [] :=
  ⟨rfl, rfl, rfl, rfl⟩

/-- C7: the payload `startTimer` submits has `stop` null and a negative
duration (whenever the current unix time is positive), and the three facade
transformations that build a TimeEntry copy `stop` and `duration` from the
wire result, so each preserves the pairing "`stop` is null iff `duration` is
negative" whenever the wire data satisfies it. -/
theorem timeEntry_stop_duration_pairing (entry : TimeEntryStart) (now : Nat)
    (startStr : String) (wid : Nat) (te : TimeEntry) (r : WireTimeEntry) :
    (0 < now →
      (startTimerPayload entry now startStr wid).stop = none ∧
      (startTimerPayload entry now startStr wid).duration < 0) ∧
    ((r.stop = none ↔ r.duration < 0) →
      (((startTimerResult entry r).stop = none
          ↔ (startTimerResult entry r).duration < 0) ∧
       ((stopTimerResult te r).stop = none
          ↔ (stopTimerResult te r).duration < 0) ∧
       ((currentTimerEntry r).stop = none
          ↔ (currentTimerEntry r).duration < 0))) := by
  constructor
  · intro h
    refine ⟨rfl, ?_⟩
    show -(now : Int) < 0
    omega
  · intro h
    exact ⟨h, h, h⟩

/-- Witness: the pairing evaluated on the concrete start request and on a
concrete running wire entry. -/
theorem timeEntry_stop_duration_pairing_witness :
    (0 < 1767254400) ∧
    ((startTimerPayload sampleStart 1767254400 "2026-01-01T08:00:00Z" 10).stop
        = none ∧
      (startTimerPayload sampleStart 1767254400 "2026-01-01T08:00:00Z" 10).duration
        < 0) ∧
    (sampleRunning.stop = none ↔ sampleRunning.duration < 0) ∧
    ((startTimerResult sampleStart sampleRunning).stop = none
      ↔ (startTimerResult sampleStart sampleRunning).duration < 0) :=
  ⟨by decide,
   (timeEntry_stop_duration_pairing sampleStart 1767254400 "2026-01-01T08:00:00Z"
      10 sampleTimeEntry sampleRunning).1 (by decide),
   by decide,
   ((timeEntry_stop_duration_pairing sampleStart 1767254400 "2026-01-01T08:00:00Z"
      10 sampleTimeEntry sampleRunning).2 (by decide)).1⟩

/-- C9: `getCurrentTimer` returns null exactly when the remote body is
empty/absent; otherwise it returns the normalized stable shape with
`description` defaulted to the empty string, `stop` and `duration` taken
from the wire entry, and no side effects either way. -/
theorem getCurrentTimer_null_iff (wire : Option WireTimeEntry)
    (r : WireTimeEntry) :
    ((getCurrentTimerT (.ok wire)).1 = .ok none ↔ wire = none) ∧
    ((getCurrentTimerT (.ok (some r))).1 = .ok (some (currentTimerEntry r))) ∧
    (currentTimerEntry r).description = r.description.getD "" ∧
    (currentTimerEntry r).stop = r.stop ∧
    (currentTimerEntry r).duration = r.duration ∧
    (getCurrentTimerT (.ok wire)).2 = noEffects := by
  refine ⟨?_, rfl, rfl, rfl, rfl, ?_⟩
  · cases wire with
    | none => simp [getCurrentTimerT]
    | some r2 => simp [getCurrentTimerT]
  · cases wire <;> rfl

/-- Witness: the absent body maps to null, and the description default on a
concrete wire entry without a description. -/
theorem getCurrentTimer_null_iff_witness :
    ((getCurrentTimerT (.ok (none : Option WireTimeEntry))).1
      = .ok (none : Option TimeEntry)) ∧
    (currentTimerEntry sampleRunning).description = "" :=
  ⟨((getCurrentTimer_null_iff none sampleRunning).1).mpr rfl,
   ((getCurrentTimer_null_iff none sampleRunning).2.2.1).trans rfl⟩

end Toggl
